import Mathlib

/-!
Shallow embedding of `src/app/api/chat/route.ts`: the POST chat handler
that validates the inbound message list, composes a single prompt string,
streams agent-runtime events back to the caller as `data: <JSON>` lines,
and emits Sentry logs / counters / distributions along the way.

Strings that contain literal braces use the escapes \x7b and \x7d.
-/

namespace ChatRoute

/-- The role tag of an inbound conversation turn (`'user' | 'assistant'`). -/
inductive Role
  | user
  | assistant
deriving DecidableEq, Repr

/-- One inbound conversation turn (interface `MessageInput` in the source). -/
structure MessageInput where
  role : Role
  content : String
deriving DecidableEq, Repr

/-- The `messages` field of the parsed request body.  `missing` covers the
falsy values caught by `!messages` (absent / null / undefined); `notArray`
covers a present value for which `Array.isArray` is false; `arr` is an
actual array of turns. -/
inductive MessagesField
  | missing
  | notArray
  | arr (ms : List MessageInput)
deriving DecidableEq, Repr

/-- Severity of a structured log record. -/
inductive LogLevel
  | info
  | warn
  | error
deriving DecidableEq, Repr

/-- One fire-and-forget telemetry emission: a structured log record (with
numeric and string attributes), a counter increment, or a distribution
sample (with its unit string). -/
inductive Telemetry
  | log (level : LogLevel) (message : String)
      (natAttrs : List (String × Nat)) (strAttrs : List (String × String))
  | count (name : String) (attrs : List (String × String))
  | dist (name : String) (value : Nat) (unit : String)
      (attrs : List (String × String))
deriving DecidableEq, Repr

/-- A JS exception as observed by the catch blocks: its `.message` and
`.stack` strings (`error instanceof Error ? error.message : ...`). -/
structure Exn where
  message : String
  stack : String
deriving DecidableEq, Repr

/-- A content block inside an assistant message: a `tool_use` block carrying
the tool name, or any other block kind. -/
inductive ContentBlock
  | toolUse (name : String)
  | otherBlock (kind : String)
deriving DecidableEq, Repr

/-- The `delta` payload of a `content_block_delta` event: a `text_delta`
carrying text, or some other delta kind. -/
inductive Delta
  | textDelta (text : String)
  | otherDelta (kind : String)
deriving DecidableEq, Repr

/-- The inner `event` of a `stream_event` message.  The delta is optional,
mirroring the source's `event.delta?.type` guard. -/
inductive InnerEvent
  | contentBlockDelta (delta : Option Delta)
  | otherInner (kind : String)
deriving DecidableEq, Repr

/-- One agent-runtime event, discriminated as the source's chain of
`message.type` checks is: `stream_event`, `assistant` (whose `content` is
`none` when absent or not an array), `tool_progress`, `result` (with its
subtype string), or anything else. -/
inductive AgentEvent
  | streamEvent (event : InnerEvent)
  | assistant (content : Option (List ContentBlock))
  | toolProgress (toolName : String) (elapsedTimeSeconds : Nat)
  | result (subtype : String)
  | otherMessage (kind : String)
deriving DecidableEq, Repr

/-- One outbound wire event, as JSON-encoded and enqueued by the handler. -/
inductive WireEvent
  | textDelta (text : String)
  | toolStart (tool : String)
  | toolProgress (tool : String) (elapsed : Nat)
  | done
  | error (message : String)
deriving DecidableEq, Repr

/-- One line of the server-sent event stream: an encoded wire event, or the
trailing `data: [DONE]` sentinel. -/
inductive StreamLine
  | dataEvent (e : WireEvent)
  | doneSentinel
deriving DecidableEq, Repr

/-- The per-request mutable counters of the stream translator
(`toolsUsedCount`, `textChunksCount` in the source). -/
structure StreamState where
  toolsUsed : Nat
  textChunks : Nat
deriving DecidableEq, Repr

/-- Timestamps of the request, abstracting `performance.now()`:
`requestStartTime` is taken at entry, `streamStartTime` before the stream
is created, and `now` is the clock value when a terminal result (or the
top-level catch) computes durations. -/
structure ReqCtx where
  requestStartTime : Nat
  streamStartTime : Nat
  now : Nat
deriving DecidableEq, Repr

/-- The caller-visible outcome of the POST handler before/without the
stream body: a JSON error response with a status code, or an opened event
stream (status 200) driven by the composite prompt. -/
inductive PostResult
  | httpError (status : Nat) (body : String)
  | streamResponse (fullPrompt : String)
deriving DecidableEq, Repr

/-- Escape one character the way `JSON.stringify` escapes string data
(quote, backslash, and the common control characters). -/
def escChar (c : Char) : String :=
  if c = '\"' then "\\\""
  else if c = '\\' then "\\\\"
  else if c = '\n' then "\\n"
  else if c = '\t' then "\\t"
  else if c = '\r' then "\\r"
  else String.singleton c

/-- Escape a string for inclusion inside a JSON string literal. -/
def jsonEscape (s : String) : String :=
  String.join (s.toList.map escChar)

/-- A JSON string literal. -/
def jsonStr (s : String) : String :=
  "\"" ++ jsonEscape s ++ "\""

/-- `JSON.stringify(\x7b error: msg \x7d)`: the body shape of every
pre-stream error response. -/
def jsonError (msg : String) : String :=
  "\x7b\"error\":" ++ jsonStr msg ++ "\x7d"

/-- JSON encoding of one outbound wire event, matching the object literals
passed to `JSON.stringify` in the source. -/
def encodeWire : WireEvent → String
  | .textDelta t =>
      "\x7b\"type\":\"text_delta\",\"text\":" ++ jsonStr t ++ "\x7d"
  | .toolStart n =>
      "\x7b\"type\":\"tool_start\",\"tool\":" ++ jsonStr n ++ "\x7d"
  | .toolProgress n e =>
      "\x7b\"type\":\"tool_progress\",\"tool\":" ++ jsonStr n
        ++ ",\"elapsed\":" ++ toString e ++ "\x7d"
  | .done => "\x7b\"type\":\"done\"\x7d"
  | .error m =>
      "\x7b\"type\":\"error\",\"message\":" ++ jsonStr m ++ "\x7d"

/-- The bytes of one stream line: `data: <JSON>\n\n` for a wire event, and
the literal `data: [DONE]\n\n` for the sentinel. -/
def encodeLine : StreamLine → String
  | .dataEvent e => "data: " ++ encodeWire e ++ "\n\n"
  | .doneSentinel => "data: [DONE]\n\n"

/-- The fixed behavioral directive prepended to every composite prompt
(`SYSTEM_PROMPT` in the source). -/
def SYSTEM_PROMPT : String :=
  "You are a helpful personal assistant designed to help with general research, questions, and tasks.\n\nYour role is to:\n- Answer questions on any topic accurately and thoroughly\n- Help with research by searching the web for current information\n- Assist with writing, editing, and brainstorming\n- Provide explanations and summaries of complex topics\n- Help solve problems and think through decisions\n\nGuidelines:\n- Be friendly, clear, and conversational\n- Use web search when you need current information, facts you\x27re unsure about, or real-time data\n- Keep responses concise but complete - expand when the topic warrants depth\n- Use markdown formatting when it helps readability (bullet points, code blocks, etc.)\n- Be honest when you don\x27t know something and offer to search for answers"

/-- `m.role === 'user'`, the filter predicate used to find the active
prompt. -/
def isUser (m : MessageInput) : Bool :=
  match m.role with
  | .user => true
  | .assistant => false

/-- `messages.filter(m => m.role === 'user').pop()`: the most recent
user-authored turn, if any. -/
def lastUserMessage? (ms : List MessageInput) : Option MessageInput :=
  (ms.filter isUser).getLast?

/-- Render one turn as `"<Role>: <content>"`, exactly as the transcript
mapper does. -/
def renderTurn (m : MessageInput) : String :=
  (match m.role with
   | .user => "User"
   | .assistant => "Assistant") ++ ": " ++ m.content

/-- `messages.slice(0, -1).map(renderTurn).join('\n\n')`: the flattened
transcript of every turn except the final one. -/
def conversationContext (ms : List MessageInput) : String :=
  String.intercalate "\n\n" (ms.dropLast.map renderTurn)

/-- The composite prompt (`fullPrompt` in the source): directive, then the
transcript under a `Previous conversation:` heading when it is non-empty,
then `User: <active content>`. -/
def fullPrompt (ms : List MessageInput) (lastUser : MessageInput) : String :=
  let c := conversationContext ms
  if c = "" then
    SYSTEM_PROMPT ++ "\n\nUser: " ++ lastUser.content
  else
    SYSTEM_PROMPT ++ "\n\nPrevious conversation:\n" ++ c
      ++ "\n\nUser: " ++ lastUser.content

/-- `messages?.length || 0`, the attribute of the first info log. -/
def messageCount : MessagesField → Nat
  | .missing => 0
  | .notArray => 0
  | .arr ms => ms.length

/-- The pre-stream part of `POST`: request counter and entry log, the two
validation gates (missing/non-array messages, then no user turn), then the
message-length distribution, the processing log, prompt composition, and
the `Starting Claude Agent SDK query` log before the stream response is
returned.  Returns the caller-visible outcome and the telemetry emitted. -/
def handlePost (body : MessagesField) : PostResult × List Telemetry :=
  let tel0 : List Telemetry :=
    [.count "chat.api.request" [("endpoint", "/api/chat")],
     .log .info "Chat API request received" [("messageCount", messageCount body)] []]
  match body with
  | .missing =>
      (.httpError 400 (jsonError "Messages array is required"),
       tel0 ++ [.log .warn "Invalid request: messages array missing or invalid" [] [],
                .count "chat.api.error" [("error_type", "invalid_messages")]])
  | .notArray =>
      (.httpError 400 (jsonError "Messages array is required"),
       tel0 ++ [.log .warn "Invalid request: messages array missing or invalid" [] [],
                .count "chat.api.error" [("error_type", "invalid_messages")]])
  | .arr ms =>
      match lastUserMessage? ms with
      | none =>
          (.httpError 400 (jsonError "No user message found"),
           tel0 ++ [.log .warn "Invalid request: no user message found" [] [],
                    .count "chat.api.error" [("error_type", "no_user_message")]])
      | some lastUser =>
          (.streamResponse (fullPrompt ms lastUser),
           tel0 ++ [.dist "chat.message.length" lastUser.content.length "none"
                      [("type", "user_message")],
                    .log .info "Processing chat request"
                      [("conversationLength", ms.length),
                       ("lastMessageLength", lastUser.content.length)] [],
                    .log .info "Starting Claude Agent SDK query" [] []])

/-- The top-level catch of `POST`: log message and stack, count the generic
`api_error`, record the error-tagged duration distribution, and return the
fixed 500 body.  No stream is opened on this path. -/
def handlePostException (ctx : ReqCtx) (e : Exn) : PostResult × List Telemetry :=
  (.httpError 500 (jsonError "Failed to process chat request. Check server logs for details."),
   [.log .error "Chat API error" [] [("error", e.message), ("stack", e.stack)],
    .count "chat.api.error" [("error_type", "api_error")],
    .dist "chat.api.duration" (ctx.now - ctx.requestStartTime) "millisecond"
      [("status", "error")]])

/-- The tool name of a `tool_use` content block. -/
def toolUseName? : ContentBlock → Option String
  | .toolUse n => some n
  | .otherBlock _ => none

/-- Telemetry emitted for one content block: the `Tool invoked` log and the
tool-name-tagged invocation counter for a `tool_use` block, nothing for any
other block. -/
def blockTelemetry : ContentBlock → List Telemetry
  | .toolUse n =>
      [.log .info "Tool invoked" [] [("tool", n)],
       .count "chat.tool.invocation" [("tool_name", n)]]
  | .otherBlock _ => []

/-- Wire events emitted for one content block: one `tool_start` for a
`tool_use` block, nothing otherwise. -/
def blockWire : ContentBlock → List WireEvent
  | .toolUse n => [.toolStart n]
  | .otherBlock _ => []

/-- Process one agent-runtime event: the body of the `for await` loop.
Returns the updated counters, the telemetry emitted, and the wire events
enqueued, in emission order. -/
def processEvent (ctx : ReqCtx) (st : StreamState) :
    AgentEvent → StreamState × List Telemetry × List WireEvent
  | .streamEvent ev =>
      match ev with
      | .contentBlockDelta (some (.textDelta t)) =>
          ({ st with textChunks := st.textChunks + 1 }, [], [.textDelta t])
      | _ => (st, [], [])
  | .assistant content =>
      match content with
      | some blocks =>
          ({ st with toolsUsed := st.toolsUsed + (blocks.filterMap toolUseName?).length },
           blocks.flatMap blockTelemetry,
           blocks.flatMap blockWire)
      | none => (st, [], [])
  | .toolProgress name elapsed => (st, [], [.toolProgress name elapsed])
  | .result sub =>
      if sub = "success" then
        (st,
         [.log .info "Chat request completed successfully"
            [("totalDuration", ctx.now - ctx.requestStartTime),
             ("streamDuration", ctx.now - ctx.streamStartTime),
             ("toolsUsed", st.toolsUsed),
             ("textChunks", st.textChunks)] [],
          .count "chat.api.success" [],
          .dist "chat.api.duration" (ctx.now - ctx.requestStartTime) "millisecond"
            [("status", "success")],
          .dist "chat.stream.chunks" st.textChunks "none" [],
          .dist "chat.tools.count" st.toolsUsed "none" []],
         [.done])
      else
        (st,
         [.log .error "Chat query did not complete successfully" [] [("subtype", sub)],
          .count "chat.api.failure" [("subtype", sub)]],
         [.error "Query did not complete successfully"])
  | .otherMessage _ => (st, [], [])

/-- Process a whole event sequence, threading the counters and
concatenating the telemetry and wire output of each event in order. -/
def processEvents (ctx : ReqCtx) (st : StreamState) :
    List AgentEvent → StreamState × List Telemetry × List WireEvent
  | [] => (st, [], [])
  | e :: es =>
      let r1 := processEvent ctx st e
      let r2 := processEvents ctx r1.1 es
      (r2.1, r1.2.1 ++ r2.2.1, r1.2.2 ++ r2.2.2)

/-- The counters start at zero for every request. -/
def initialState : StreamState := ⟨0, 0⟩

/-- The stream body when the iteration runs to exhaustion without raising:
every translated wire event in order, then the `data: [DONE]` sentinel,
then the controller closes.  Also returns the telemetry. -/
def runStream (ctx : ReqCtx) (events : List AgentEvent) :
    List StreamLine × List Telemetry :=
  let r := processEvents ctx initialState events
  (r.2.2.map StreamLine.dataEvent ++ [StreamLine.doneSentinel], r.2.1)

/-- The stream body when the iteration raises after the events of `pre`
have been processed: the catch block logs the error with the counters
accumulated so far, counts `chat.stream.error` tagged `stream_processing`,
enqueues the fixed `Stream error occurred` event, and closes — without the
`[DONE]` sentinel. -/
def runStreamWithError (ctx : ReqCtx) (pre : List AgentEvent) (e : Exn) :
    List StreamLine × List Telemetry :=
  let r := processEvents ctx initialState pre
  (r.2.2.map StreamLine.dataEvent ++ [StreamLine.dataEvent (.error "Stream error occurred")],
   r.2.1 ++ [.log .error "Stream processing error"
               [("toolsUsed", r.1.toolsUsed), ("textChunks", r.1.textChunks)]
               [("error", e.message)],
             .count "chat.stream.error" [("error_type", "stream_processing")]])

/-- Per-event wire translation, independent of the accumulated counters:
what the loop body enqueues for one event. -/
def wireOfEvent : AgentEvent → List WireEvent
  | .streamEvent ev =>
      match ev with
      | .contentBlockDelta (some (.textDelta t)) => [.textDelta t]
      | _ => []
  | .assistant content =>
      match content with
      | some blocks => blocks.flatMap blockWire
      | none => []
  | .toolProgress name elapsed => [.toolProgress name elapsed]
  | .result sub =>
      if sub = "success" then [.done]
      else [.error "Query did not complete successfully"]
  | .otherMessage _ => []

/-- The tool names of the `tool_use` blocks of one event, in block order. -/
def eventToolNames : AgentEvent → List String
  | .assistant (some blocks) => blocks.filterMap toolUseName?
  | _ => []

/-- The texts of the streaming text-delta payload of one event (one
element for a text-delta stream event, none otherwise). -/
def eventTextDeltas : AgentEvent → List String
  | .streamEvent (.contentBlockDelta (some (.textDelta t))) => [t]
  | _ => []

/-- Extract the tool name of a `tool_start` wire event. -/
def toolStartName? : WireEvent → Option String
  | .toolStart n => some n
  | _ => none

/-- Extract the text of a `text_delta` wire event. -/
def textDeltaText? : WireEvent → Option String
  | .textDelta t => some t
  | _ => none

/-- Extract the tool name of a `chat.tool.invocation` counter emission. -/
def toolCounterName? : Telemetry → Option String
  | .count "chat.tool.invocation" [("tool_name", n)] => some n
  | _ => none

/-- Extract the `textChunks` attribute of a completion log record. -/
def completionChunks? : Telemetry → Option Nat
  | .log .info "Chat request completed successfully" attrs _ =>
      List.lookup "textChunks" attrs
  | _ => none

/-- Extract the value of a `chat.stream.chunks` distribution sample. -/
def chunksDistValue? : Telemetry → Option Nat
  | .dist "chat.stream.chunks" v _ _ => some v
  | _ => none

/-- Is this wire event a `done`? -/
def isDoneEvent : WireEvent → Bool
  | .done => true
  | _ => false

/-- Is this wire event an `error`? -/
def isErrorEvent : WireEvent → Bool
  | .error _ => true
  | _ => false

/-- Is this agent event a success-subtype result? -/
def isSuccessResult : AgentEvent → Bool
  | .result sub => if sub = "success" then true else false
  | _ => false

/-- Is this agent event a non-success-subtype result? -/
def isFailureResult : AgentEvent → Bool
  | .result sub => if sub = "success" then false else true
  | _ => false

/-! ## Helper lemmas about the per-event translation -/

@[simp]
theorem toolCounterName?_log (lv : LogLevel) (m : String)
    (na : List (String × Nat)) (sa : List (String × String)) :
    toolCounterName? (.log lv m na sa) = none := rfl

@[simp]
theorem toolCounterName?_dist (n : String) (v : Nat) (u : String)
    (a : List (String × String)) :
    toolCounterName? (.dist n v u a) = none := rfl

@[simp]
theorem toolCounterName?_invocation (n : String) :
    toolCounterName? (.count "chat.tool.invocation" [("tool_name", n)]) = some n := rfl

@[simp]
theorem toolCounterName?_success :
    toolCounterName? (.count "chat.api.success" []) = none := rfl

@[simp]
theorem toolCounterName?_failure (sub : String) :
    toolCounterName? (.count "chat.api.failure" [("subtype", sub)]) = none := rfl

theorem blockWire_toolStarts (blocks : List ContentBlock) :
    (blocks.flatMap blockWire).filterMap toolStartName? =
      blocks.filterMap toolUseName? := by
  induction blocks with
  | nil => rfl
  | cons b t ih =>
      cases b <;>
        simp [blockWire, toolUseName?, toolStartName?, List.flatMap_cons,
          List.filterMap_append, List.filterMap_cons, ih]

theorem blockWire_textDeltas (blocks : List ContentBlock) :
    (blocks.flatMap blockWire).filterMap textDeltaText? = [] := by
  induction blocks with
  | nil => rfl
  | cons b t ih =>
      cases b <;>
        simp [blockWire, textDeltaText?, List.flatMap_cons,
          List.filterMap_append, List.filterMap_cons, ih]

theorem blockWire_no_done (blocks : List ContentBlock) :
    (blocks.flatMap blockWire).filter isDoneEvent = [] := by
  induction blocks with
  | nil => rfl
  | cons b t ih =>
      cases b <;>
        simp [blockWire, isDoneEvent, List.flatMap_cons,
          List.filter_append, List.filter_cons, ih]

theorem blockWire_no_error (blocks : List ContentBlock) :
    (blocks.flatMap blockWire).filter isErrorEvent = [] := by
  induction blocks with
  | nil => rfl
  | cons b t ih =>
      cases b <;>
        simp [blockWire, isErrorEvent, List.flatMap_cons,
          List.filter_append, List.filter_cons, ih]

theorem blockTelemetry_counters (blocks : List ContentBlock) :
    (blocks.flatMap blockTelemetry).filterMap toolCounterName? =
      blocks.filterMap toolUseName? := by
  induction blocks with
  | nil => rfl
  | cons b t ih =>
      cases b <;>
        simp [blockTelemetry, toolUseName?, List.flatMap_cons,
          List.filterMap_append, List.filterMap_cons, ih]

theorem processEvent_wire (ctx : ReqCtx) (st : StreamState) (e : AgentEvent) :
    (processEvent ctx st e).2.2 = wireOfEvent e := by
  cases e with
  | streamEvent ev =>
      cases ev with
      | contentBlockDelta d =>
          cases d with
          | none => rfl
          | some dl => cases dl <;> rfl
      | otherInner k => rfl
  | assistant content => cases content <;> rfl
  | toolProgress n t => rfl
  | result sub => by_cases h : sub = "success" <;> simp [processEvent, wireOfEvent, h]
  | otherMessage k => rfl

theorem processEvent_state (ctx : ReqCtx) (st : StreamState) (e : AgentEvent) :
    (processEvent ctx st e).1 =
      ⟨st.toolsUsed + (eventToolNames e).length,
       st.textChunks + (eventTextDeltas e).length⟩ := by
  cases e with
  | streamEvent ev =>
      cases ev with
      | contentBlockDelta d =>
          cases d with
          | none => rfl
          | some dl => cases dl <;> rfl
      | otherInner k => rfl
  | assistant content => cases content <;> rfl
  | toolProgress n t => rfl
  | result sub =>
      by_cases h : sub = "success" <;>
        simp [processEvent, eventToolNames, eventTextDeltas, h]
  | otherMessage k => rfl

theorem processEvent_toolCounters (ctx : ReqCtx) (st : StreamState) (e : AgentEvent) :
    (processEvent ctx st e).2.1.filterMap toolCounterName? = eventToolNames e := by
  cases e with
  | streamEvent ev =>
      cases ev with
      | contentBlockDelta d =>
          cases d with
          | none => rfl
          | some dl => cases dl <;> rfl
      | otherInner k => rfl
  | assistant content =>
      cases content with
      | none => rfl
      | some blocks => simpa [processEvent, eventToolNames] using blockTelemetry_counters blocks
  | toolProgress n t => rfl
  | result sub =>
      by_cases h : sub = "success" <;>
        simp [processEvent, eventToolNames, h, List.filterMap_cons]
  | otherMessage k => rfl

theorem processEvents_wire (ctx : ReqCtx) (events : List AgentEvent) : ∀ st : StreamState,
    (processEvents ctx st events).2.2 = events.flatMap wireOfEvent := by
  induction events with
  | nil => intro st; rfl
  | cons e es ih =>
      intro st
      simp [processEvents, List.flatMap_cons, processEvent_wire, ih]

theorem processEvents_state (ctx : ReqCtx) (events : List AgentEvent) : ∀ st : StreamState,
    (processEvents ctx st events).1 =
      ⟨st.toolsUsed + (events.flatMap eventToolNames).length,
       st.textChunks + (events.flatMap eventTextDeltas).length⟩ := by
  induction events with
  | nil => intro st; rfl
  | cons e es ih =>
      intro st
      simp only [processEvents]
      rw [ih, processEvent_state]
      simp [List.flatMap_cons, Nat.add_assoc]

theorem processEvents_toolCounters (ctx : ReqCtx) (events : List AgentEvent) :
    ∀ st : StreamState,
    (processEvents ctx st events).2.1.filterMap toolCounterName? =
      events.flatMap eventToolNames := by
  induction events with
  | nil => intro st; rfl
  | cons e es ih =>
      intro st
      simp [processEvents, List.flatMap_cons, List.filterMap_append,
        processEvent_toolCounters, ih]

theorem processEvents_append (ctx : ReqCtx) (xs ys : List AgentEvent) : ∀ st : StreamState,
    processEvents ctx st (xs ++ ys) =
      ((processEvents ctx (processEvents ctx st xs).1 ys).1,
       (processEvents ctx st xs).2.1 ++ (processEvents ctx (processEvents ctx st xs).1 ys).2.1,
       (processEvents ctx st xs).2.2 ++ (processEvents ctx (processEvents ctx st xs).1 ys).2.2) := by
  induction xs with
  | nil => intro st; simp [processEvents]
  | cons e es ih =>
      intro st
      simp [processEvents, ih, List.append_assoc]

theorem wireOfEvent_textDeltas (e : AgentEvent) :
    (wireOfEvent e).filterMap textDeltaText? = eventTextDeltas e := by
  cases e with
  | streamEvent ev =>
      cases ev with
      | contentBlockDelta d =>
          cases d with
          | none => rfl
          | some dl => cases dl <;> rfl
      | otherInner k => rfl
  | assistant content =>
      cases content with
      | none => rfl
      | some blocks => simpa [wireOfEvent, eventTextDeltas] using blockWire_textDeltas blocks
  | toolProgress n t => rfl
  | result sub =>
      by_cases h : sub = "success" <;>
        simp [wireOfEvent, eventTextDeltas, textDeltaText?, h, List.filterMap_cons]
  | otherMessage k => rfl

theorem wireOfEvent_done_count (e : AgentEvent) :
    ((wireOfEvent e).filter isDoneEvent).length = (if isSuccessResult e then 1 else 0) := by
  cases e with
  | streamEvent ev =>
      cases ev with
      | contentBlockDelta d =>
          cases d with
          | none => rfl
          | some dl => cases dl <;> rfl
      | otherInner k => rfl
  | assistant content =>
      cases content with
      | none => rfl
      | some blocks =>
          simp [wireOfEvent, isSuccessResult, blockWire_no_done blocks]
  | toolProgress n t => rfl
  | result sub =>
      by_cases h : sub = "success" <;>
        simp [wireOfEvent, isSuccessResult, isDoneEvent, h, List.filter_cons]
  | otherMessage k => rfl

theorem wireOfEvent_error_count (e : AgentEvent) :
    ((wireOfEvent e).filter isErrorEvent).length = (if isFailureResult e then 1 else 0) := by
  cases e with
  | streamEvent ev =>
      cases ev with
      | contentBlockDelta d =>
          cases d with
          | none => rfl
          | some dl => cases dl <;> rfl
      | otherInner k => rfl
  | assistant content =>
      cases content with
      | none => rfl
      | some blocks =>
          simp [wireOfEvent, isFailureResult, blockWire_no_error blocks]
  | toolProgress n t => rfl
  | result sub =>
      by_cases h : sub = "success" <;>
        simp [wireOfEvent, isFailureResult, isErrorEvent, h, List.filter_cons]
  | otherMessage k => rfl

theorem flatMap_wire_done_count (events : List AgentEvent) :
    ((events.flatMap wireOfEvent).filter isDoneEvent).length =
      (events.filter isSuccessResult).length := by
  induction events with
  | nil => rfl
  | cons e es ih =>
      by_cases h : isSuccessResult e = true <;>
        simp [List.flatMap_cons, List.filter_append, List.filter_cons,
          wireOfEvent_done_count, h, ih, Nat.add_comm]

theorem flatMap_wire_error_count (events : List AgentEvent) :
    ((events.flatMap wireOfEvent).filter isErrorEvent).length =
      (events.filter isFailureResult).length := by
  induction events with
  | nil => rfl
  | cons e es ih =>
      by_cases h : isFailureResult e = true <;>
        simp [List.flatMap_cons, List.filter_append, List.filter_cons,
          wireOfEvent_error_count, h, ih, Nat.add_comm]

theorem wireOfEvent_toolStarts (e : AgentEvent) :
    (wireOfEvent e).filterMap toolStartName? = eventToolNames e := by
  cases e with
  | streamEvent ev =>
      cases ev with
      | contentBlockDelta d =>
          cases d with
          | none => rfl
          | some dl => cases dl <;> rfl
      | otherInner k => rfl
  | assistant content =>
      cases content with
      | none => rfl
      | some blocks => simpa [wireOfEvent, eventToolNames] using blockWire_toolStarts blocks
  | toolProgress n t => rfl
  | result sub =>
      by_cases h : sub = "success" <;>
        simp [wireOfEvent, eventToolNames, toolStartName?, h, List.filterMap_cons]
  | otherMessage k => rfl

theorem flatMap_wire_toolStarts (events : List AgentEvent) :
    ((events.flatMap wireOfEvent).filterMap toolStartName?) =
      events.flatMap eventToolNames := by
  induction events with
  | nil => rfl
  | cons e es ih =>
      simp [List.flatMap_cons, List.filterMap_append, wireOfEvent_toolStarts, ih]

theorem flatMap_wire_textDeltas (events : List AgentEvent) :
    ((events.flatMap wireOfEvent).filterMap textDeltaText?) =
      events.flatMap eventTextDeltas := by
  induction events with
  | nil => rfl
  | cons e es ih =>
      simp [List.flatMap_cons, List.filterMap_append, wireOfEvent_textDeltas, ih]

theorem filter_getLast?_of_getLast?_isUser (ms : List MessageInput) (m : MessageInput)
    (hm : ms.getLast? = some m) (hu : isUser m = true) :
    (ms.filter isUser).getLast? = some m := by
  rw [← List.head?_reverse] at hm
  rw [← List.head?_reverse, ← List.filter_reverse]
  cases hrev : ms.reverse with
  | nil => rw [hrev] at hm; cases hm
  | cons x t =>
      rw [hrev] at hm
      cases hm
      simp [List.filter_cons, hu]

@[simp]
theorem completionChunks?_count (n : String) (a : List (String × String)) :
    completionChunks? (.count n a) = none := rfl

@[simp]
theorem completionChunks?_dist (n : String) (v : Nat) (u : String)
    (a : List (String × String)) :
    completionChunks? (.dist n v u a) = none := rfl

@[simp]
theorem completionChunks?_completion (a b c d : Nat) :
    completionChunks? (.log .info "Chat request completed successfully"
      [("totalDuration", a), ("streamDuration", b), ("toolsUsed", c), ("textChunks", d)] [])
      = some d := rfl

@[simp]
theorem chunksDistValue?_log (lv : LogLevel) (m : String)
    (na : List (String × Nat)) (sa : List (String × String)) :
    chunksDistValue? (.log lv m na sa) = none := rfl

@[simp]
theorem chunksDistValue?_count (n : String) (a : List (String × String)) :
    chunksDistValue? (.count n a) = none := rfl

@[simp]
theorem chunksDistValue?_duration (v : Nat) (u : String) (a : List (String × String)) :
    chunksDistValue? (.dist "chat.api.duration" v u a) = none := rfl

@[simp]
theorem chunksDistValue?_chunks (v : Nat) (u : String) (a : List (String × String)) :
    chunksDistValue? (.dist "chat.stream.chunks" v u a) = some v := rfl

@[simp]
theorem chunksDistValue?_tools (v : Nat) (u : String) (a : List (String × String)) :
    chunksDistValue? (.dist "chat.tools.count" v u a) = none := rfl

/-- Appending a success result to an event sequence appends exactly the
completion log (with the accumulated counters), the success counter, and
the three distribution samples to the telemetry channel. -/
theorem processEvents_concat_success (ctx : ReqCtx) (pre : List AgentEvent) :
    (processEvents ctx initialState (pre ++ [AgentEvent.result "success"])).2.1 =
      (processEvents ctx initialState pre).2.1 ++
      [.log .info "Chat request completed successfully"
          [("totalDuration", ctx.now - ctx.requestStartTime),
           ("streamDuration", ctx.now - ctx.streamStartTime),
           ("toolsUsed", (processEvents ctx initialState pre).1.toolsUsed),
           ("textChunks", (processEvents ctx initialState pre).1.textChunks)] [],
       .count "chat.api.success" [],
       .dist "chat.api.duration" (ctx.now - ctx.requestStartTime) "millisecond"
          [("status", "success")],
       .dist "chat.stream.chunks" (processEvents ctx initialState pre).1.textChunks "none" [],
       .dist "chat.tools.count" (processEvents ctx initialState pre).1.toolsUsed "none" []] := by
  rw [processEvents_append]
  simp [processEvents, processEvent]

theorem runStream_fst (ctx : ReqCtx) (events : List AgentEvent) :
    (runStream ctx events).1 =
      (processEvents ctx initialState events).2.2.map StreamLine.dataEvent ++
        [StreamLine.doneSentinel] := rfl

theorem runStream_snd (ctx : ReqCtx) (events : List AgentEvent) :
    (runStream ctx events).2 = (processEvents ctx initialState events).2.1 := rfl

theorem runStreamWithError_fst (ctx : ReqCtx) (pre : List AgentEvent) (e : Exn) :
    (runStreamWithError ctx pre e).1 =
      (processEvents ctx initialState pre).2.2.map StreamLine.dataEvent ++
        [StreamLine.dataEvent (.error "Stream error occurred")] := rfl

theorem runStreamWithError_snd (ctx : ReqCtx) (pre : List AgentEvent) (e : Exn) :
    (runStreamWithError ctx pre e).2 =
      (processEvents ctx initialState pre).2.1 ++
      [.log .error "Stream processing error"
          [("toolsUsed", (processEvents ctx initialState pre).1.toolsUsed),
           ("textChunks", (processEvents ctx initialState pre).1.textChunks)]
          [("error", e.message)],
       .count "chat.stream.error" [("error_type", "stream_processing")]] := rfl

/-! ## Claim theorems -/

/-- Claim C4: for every agent event sequence, every `tool_use` content block
of an assistant-message event yields exactly one outbound `tool_start`
carrying that block's tool name, in the same relative order as the blocks;
each such block also yields one `chat.tool.invocation` counter tagged with
the tool name, and `toolsUsed` grows by the number of such blocks. -/
theorem C4_tool_starts (ctx : ReqCtx) (st : StreamState) (events : List AgentEvent) :
    (processEvents ctx st events).2.2.filterMap toolStartName? =
        events.flatMap eventToolNames ∧
    (processEvents ctx st events).2.1.filterMap toolCounterName? =
        events.flatMap eventToolNames ∧
    (processEvents ctx st events).1.toolsUsed =
        st.toolsUsed + (events.flatMap eventToolNames).length := by
  refine ⟨?_, processEvents_toolCounters ctx events st, ?_⟩
  · rw [processEvents_wire]
    exact flatMap_wire_toolStarts events
  · rw [processEvents_state]

/-- Claim C6: the outbound wire events are the in-order concatenation of
each input event's translation — no outbound event of a later input
precedes one of an earlier input, and no reordering or batching occurs. -/
theorem C6_ordering (ctx : ReqCtx) (st : StreamState) (events : List AgentEvent) :
    (processEvents ctx st events).2.2 = events.flatMap wireOfEvent :=
  processEvents_wire ctx events st

/-- Claim C10: the translator does not stop at a terminal result — the
output contains one `done` per success-subtype result and one `error` per
non-success result, so a sequence with two success results yields two
`done` events before the single trailing `[DONE]` sentinel. -/
theorem C10_multiple_results :
    (∀ (ctx : ReqCtx) (st : StreamState) (events : List AgentEvent),
      ((processEvents ctx st events).2.2.filter isDoneEvent).length =
          (events.filter isSuccessResult).length ∧
      ((processEvents ctx st events).2.2.filter isErrorEvent).length =
          (events.filter isFailureResult).length) ∧
    (runStream ⟨0, 0, 0⟩ [.result "success", .result "success"]).1 =
      [StreamLine.dataEvent .done, StreamLine.dataEvent .done,
       StreamLine.doneSentinel] := by
  refine ⟨fun ctx st events => ⟨?_, ?_⟩, ?_⟩
  · rw [processEvents_wire]
    exact flatMap_wire_done_count events
  · rw [processEvents_wire]
    exact flatMap_wire_error_count events
  · rfl

/-- Claim C5: for every event sequence ending in a success-subtype result,
the `textChunks` value recorded in the completion log — and the value of
the `chat.stream.chunks` distribution — equals the number of streaming
text-delta input events observed, and each text-delta input event emits
exactly one outbound `text_delta` carrying its text. -/
theorem C5_text_chunks (ctx : ReqCtx) (pre : List AgentEvent) :
    ((processEvents ctx initialState (pre ++ [AgentEvent.result "success"])).2.1.filterMap
        completionChunks?).getLast? =
      some ((pre ++ [AgentEvent.result "success"]).flatMap eventTextDeltas).length ∧
    ((processEvents ctx initialState (pre ++ [AgentEvent.result "success"])).2.1.filterMap
        chunksDistValue?).getLast? =
      some ((pre ++ [AgentEvent.result "success"]).flatMap eventTextDeltas).length ∧
    (processEvents ctx initialState (pre ++ [AgentEvent.result "success"])).2.2.filterMap
        textDeltaText? =
      (pre ++ [AgentEvent.result "success"]).flatMap eventTextDeltas := by
  have hflat : (pre ++ [AgentEvent.result "success"]).flatMap eventTextDeltas =
      pre.flatMap eventTextDeltas := by
    simp [List.flatMap_append, eventTextDeltas]
  have hchunks : (processEvents ctx initialState pre).1.textChunks =
      (pre.flatMap eventTextDeltas).length := by
    rw [processEvents_state]
    simp [initialState]
  refine ⟨?_, ?_, ?_⟩
  · rw [processEvents_concat_success, List.filterMap_append, hflat, ← hchunks]
    simp [List.filterMap_cons]
  · rw [processEvents_concat_success, List.filterMap_append, hflat, ← hchunks]
    simp [List.filterMap_cons]
  · rw [processEvents_wire]
    exact flatMap_wire_textDeltas _

/-- Claim C7: for every event sequence whose final event is a terminal
result with a non-success subtype, the handler logs the failure subtype and
increments the subtype-tagged failure counter, and the stream's final
content event is the generic `error` event, followed by the `[DONE]`
sentinel. -/
theorem C7_failure_result (ctx : ReqCtx) (pre : List AgentEvent) (sub : String)
    (h : sub ≠ "success") :
    (∃ front, (runStream ctx (pre ++ [AgentEvent.result sub])).1 =
        front ++ [StreamLine.dataEvent (.error "Query did not complete successfully"),
                  StreamLine.doneSentinel]) ∧
    (∃ tf, (runStream ctx (pre ++ [AgentEvent.result sub])).2 =
        tf ++ [.log .error "Chat query did not complete successfully" [] [("subtype", sub)],
               .count "chat.api.failure" [("subtype", sub)]]) := by
  constructor
  · refine ⟨(pre.flatMap wireOfEvent).map StreamLine.dataEvent, ?_⟩
    rw [runStream_fst, processEvents_wire, List.flatMap_append]
    have hw : ([AgentEvent.result sub].flatMap wireOfEvent) =
        [.error "Query did not complete successfully"] := by
      simp [wireOfEvent, h]
    rw [hw]
    simp [List.map_append, List.append_assoc]
  · refine ⟨(processEvents ctx initialState pre).2.1, ?_⟩
    rw [runStream_snd, processEvents_append]
    simp [processEvents, processEvent, h]

/-- Witness for C7: the concrete scenario `pre = []`,
`sub = "error_max_turns"`. -/
theorem C7_failure_result_witness :
    (∃ front, (runStream ⟨0, 0, 0⟩ ([] ++ [AgentEvent.result "error_max_turns"])).1 =
        front ++ [StreamLine.dataEvent (.error "Query did not complete successfully"),
                  StreamLine.doneSentinel]) ∧
    (∃ tf, (runStream ⟨0, 0, 0⟩ ([] ++ [AgentEvent.result "error_max_turns"])).2 =
        tf ++ [.log .error "Chat query did not complete successfully" []
                  [("subtype", "error_max_turns")],
               .count "chat.api.failure" [("subtype", "error_max_turns")]]) :=
  C7_failure_result ⟨0, 0, 0⟩ [] "error_max_turns" (by decide)

/-- Claim C8: for every valid input with at least one user turn, the
composite prompt handed to the stream (as returned by the handler) ends
with `"User: "` followed by the content of the most recent user turn. -/
theorem C8_prompt_suffix (ms : List MessageInput) (lu : MessageInput)
    (h : lastUserMessage? ms = some lu) :
    (handlePost (.arr ms)).1 = .streamResponse (fullPrompt ms lu) ∧
    ∃ p, fullPrompt ms lu = p ++ ("User: " ++ lu.content) := by
  constructor
  · simp [handlePost, h]
  · simp only [fullPrompt]
    have key : ∀ c : String, "\n\nUser: " ++ c = "\n\n" ++ ("User: " ++ c) := by
      intro c
      rw [← String.append_assoc]
      rfl
    by_cases hc : conversationContext ms = ""
    · refine ⟨SYSTEM_PROMPT ++ "\n\n", ?_⟩
      rw [if_pos hc]
      simp [key, String.append_assoc]
    · refine ⟨SYSTEM_PROMPT ++ "\n\nPrevious conversation:\n"
        ++ conversationContext ms ++ "\n\n", ?_⟩
      rw [if_neg hc]
      simp [key, String.append_assoc]

/-- Witness for C8 at the single-turn input `[user "hi"]`. -/
theorem C8_prompt_suffix_witness :
    (handlePost (.arr [⟨Role.user, "hi"⟩])).1 =
      .streamResponse (fullPrompt [⟨Role.user, "hi"⟩] ⟨Role.user, "hi"⟩) ∧
    ∃ p, fullPrompt [⟨Role.user, "hi"⟩] ⟨Role.user, "hi"⟩ =
      p ++ ("User: " ++ (MessageInput.mk Role.user "hi").content) :=
  C8_prompt_suffix [⟨Role.user, "hi"⟩] ⟨Role.user, "hi"⟩ (by decide)

set_option maxRecDepth 10000 in
/-- Counterexample to claim C3: on `[user "hi", assistant "yo"]` the active
prompt is the first turn; the transcript (built from all turns but the
final one) renders exactly that active turn, so its content appears both
inside the transcript and as the appended final `User: ` line. -/
theorem C3_counterexample :
    lastUserMessage? [⟨Role.user, "hi"⟩, ⟨Role.assistant, "yo"⟩] =
      some ⟨Role.user, "hi"⟩ ∧
    (⟨Role.user, "hi"⟩ : MessageInput) ∈
      ([⟨Role.user, "hi"⟩, ⟨Role.assistant, "yo"⟩] : List MessageInput).dropLast ∧
    conversationContext [⟨Role.user, "hi"⟩, ⟨Role.assistant, "yo"⟩] = "User: hi" ∧
    fullPrompt [⟨Role.user, "hi"⟩, ⟨Role.assistant, "yo"⟩] ⟨Role.user, "hi"⟩ =
      SYSTEM_PROMPT ++ "\n\nPrevious conversation:\nUser: hi\n\nUser: hi" :=
  ⟨by decide, by decide, by decide, by decide⟩

/-- Claim C3 (amended): the transcript embedded in the composite prompt
consists of all turns except the final one, regardless of role; when the
final turn is user-authored it coincides with the active prompt, so in
that case the active prompt is excluded from the transcript. -/
theorem C3_transcript (ms : List MessageInput) (lu m : MessageInput)
    (hlu : lastUserMessage? ms = some lu) (hm : ms.getLast? = some m)
    (huser : m.role = Role.user) :
    conversationContext ms =
      String.intercalate "\n\n" (ms.dropLast.map renderTurn) ∧ lu = m := by
  refine ⟨rfl, ?_⟩
  have hu : isUser m = true := by simp [isUser, huser]
  have hlast := filter_getLast?_of_getLast?_isUser ms m hm hu
  rw [lastUserMessage?] at hlu
  exact Option.some.inj (hlu.symm.trans hlast)

/-- Witness for C3 (amended) at `[assistant "a", user "b"]`. -/
theorem C3_transcript_witness :
    conversationContext [⟨Role.assistant, "a"⟩, ⟨Role.user, "b"⟩] =
      String.intercalate "\n\n"
        (([⟨Role.assistant, "a"⟩, ⟨Role.user, "b"⟩] :
            List MessageInput).dropLast.map renderTurn) ∧
    (⟨Role.user, "b"⟩ : MessageInput) = ⟨Role.user, "b"⟩ :=
  C3_transcript [⟨Role.assistant, "a"⟩, ⟨Role.user, "b"⟩]
    ⟨Role.user, "b"⟩ ⟨Role.user, "b"⟩ (by decide) (by decide) (by decide)

/-- Counterexample to claim C2: when the iteration raises before any event
(here with exception message "boom"), the catch block emits the generic
error event and closes the stream; the final line is that error event, not
the `data: [DONE]` sentinel. -/
theorem C2_counterexample :
    ((runStreamWithError ⟨0, 0, 0⟩ [] ⟨"boom", "trace"⟩).1.map encodeLine).getLast? =
      some "data: \x7b\"type\":\"error\",\"message\":\"Stream error occurred\"\x7d\n\n" ∧
    ¬ ((runStreamWithError ⟨0, 0, 0⟩ [] ⟨"boom", "trace"⟩).1.map encodeLine).getLast? =
      some "data: [DONE]\n\n" :=
  ⟨by decide, by decide⟩

/-- Claim C2 (amended): a stream whose iteration is exhausted without an
exception ends with the literal line `data: [DONE]\n\n`; when an exception
is raised mid-iteration, the generic error event is emitted as the final
line and the connection closes without the sentinel. -/
theorem C2_sentinel (ctx : ReqCtx) (events pre : List AgentEvent) (e : Exn) :
    ((runStream ctx events).1.map encodeLine).getLast? = some "data: [DONE]\n\n" ∧
    ((runStreamWithError ctx pre e).1.map encodeLine).getLast? =
      some ("data: " ++ encodeWire (.error "Stream error occurred") ++ "\n\n") ∧
    (runStreamWithError ctx pre e).1.getLast? ≠ some StreamLine.doneSentinel := by
  refine ⟨?_, ?_, ?_⟩
  · rw [runStream_fst, List.map_append]
    simp [List.getLast?_concat, encodeLine]
  · rw [runStreamWithError_fst, List.map_append]
    simp [List.getLast?_concat, encodeLine]
  · rw [runStreamWithError_fst]
    simp [List.getLast?_concat]

/-- Counterexample to claim C1: on the empty messages array the handler
does return 400 and opens no stream, but the body is
`\x7b"error":"No user message found"\x7d` and the error counter is tagged
`no_user_message`, not the claimed `Messages array is required` body and
missing/malformed tag. -/
theorem C1_counterexample :
    (handlePost (.arr [])).1 = .httpError 400 (jsonError "No user message found") ∧
    ¬ (handlePost (.arr [])).1 =
        .httpError 400 (jsonError "Messages array is required") ∧
    ¬ Telemetry.count "chat.api.error" [("error_type", "invalid_messages")] ∈
        (handlePost (.arr [])).2 ∧
    Telemetry.count "chat.api.error" [("error_type", "no_user_message")] ∈
        (handlePost (.arr [])).2 :=
  ⟨by decide, by decide, by decide, by decide⟩

/-- Claim C1 (amended): a missing or non-array messages field yields 400
with body `\x7b"error":"Messages array is required"\x7d` and the error
counter tagged `invalid_messages`; an empty messages array passes that
check and instead yields 400 with body
`\x7b"error":"No user message found"\x7d` and the error counter tagged
`no_user_message`; in all three cases the outcome is an error response, so
no stream is opened. -/
theorem C1_validator :
    (handlePost .missing).1 =
      .httpError 400 (jsonError "Messages array is required") ∧
    (handlePost .notArray).1 =
      .httpError 400 (jsonError "Messages array is required") ∧
    Telemetry.count "chat.api.error" [("error_type", "invalid_messages")] ∈
      (handlePost .missing).2 ∧
    Telemetry.count "chat.api.error" [("error_type", "invalid_messages")] ∈
      (handlePost .notArray).2 ∧
    (handlePost (.arr [])).1 = .httpError 400 (jsonError "No user message found") ∧
    Telemetry.count "chat.api.error" [("error_type", "no_user_message")] ∈
      (handlePost (.arr [])).2 :=
  ⟨by decide, by decide, by decide, by decide, by decide, by decide⟩

/-- Claim C9: every caller-visible error message is a fixed constant — the
pre-stream 500 body, the in-stream `Stream error occurred` event, and the
non-success-result `error` event are all independent of the underlying
exception content or failure subtype; the exception detail (message,
stack) and the accumulated counters go only to the log sink. -/
theorem C9_generic_errors :
    (∀ (ctx : ReqCtx) (e1 e2 : Exn),
      (handlePostException ctx e1).1 = (handlePostException ctx e2).1) ∧
    (∀ (ctx : ReqCtx) (e : Exn),
      (handlePostException ctx e).1 =
        .httpError 500
          (jsonError "Failed to process chat request. Check server logs for details.")) ∧
    (∀ (ctx : ReqCtx) (pre : List AgentEvent) (e1 e2 : Exn),
      (runStreamWithError ctx pre e1).1 = (runStreamWithError ctx pre e2).1) ∧
    (∀ sub1 sub2 : String, sub1 ≠ "success" → sub2 ≠ "success" →
      wireOfEvent (.result sub1) = wireOfEvent (.result sub2)) ∧
    (∀ (ctx : ReqCtx) (e : Exn),
      Telemetry.log .error "Chat API error" []
          [("error", e.message), ("stack", e.stack)] ∈ (handlePostException ctx e).2) ∧
    (∀ (ctx : ReqCtx) (pre : List AgentEvent) (e : Exn),
      Telemetry.log .error "Stream processing error"
          [("toolsUsed", (processEvents ctx initialState pre).1.toolsUsed),
           ("textChunks", (processEvents ctx initialState pre).1.textChunks)]
          [("error", e.message)] ∈ (runStreamWithError ctx pre e).2) := by
  refine ⟨fun ctx e1 e2 => rfl, fun ctx e => rfl, fun ctx pre e1 e2 => rfl,
    fun sub1 sub2 h1 h2 => ?_, fun ctx e => ?_, fun ctx pre e => ?_⟩
  · simp [wireOfEvent, h1, h2]
  · simp [handlePostException]
  · rw [runStreamWithError_snd]
    simp

/-- Witness for C9: two distinct non-success subtypes produce the same
outbound error event. -/
theorem C9_generic_errors_witness :
    wireOfEvent (.result "error_max_turns") =
      wireOfEvent (.result "error_during_execution") :=
  C9_generic_errors.2.2.2.1 "error_max_turns" "error_during_execution"
    (by decide) (by decide)

end ChatRoute
